import Mathlib

/-!
Shallow embedding of the pest-prediction evaluation pipeline (src/app.py)
and proofs about it.

Modelling conventions:
* Python floats are modelled as exact rationals (ℚ); decimal literals such
  as `17.27` denote the exact rational they print as.
* `None` / absent dictionary keys are modelled with `Option`.
* The opaque scoring model (scaler + autoencoder + mean-squared error,
  app.py lines 235-237) is a parameter `score : List ℚ → ℚ` giving the
  reconstruction error of a feature vector, as the spec's
  `score(features) -> error` interface prescribes.
* `np.log` is a parameter `logf : ℚ → ℚ`: the claims under study concern
  the clamping and the algebraic shape of the Magnus formula, not the
  analytic properties of the logarithm.
* Network / database calls that can fail are parameters returning
  `Option` (`none` = exception or missing data).
-/

/-- Risk levels used throughout app.py (string literals in the source). -/
inductive Risk
  | NORMAL
  | WATCH
  | WARNING
  | HIGH
  deriving DecidableEq, Repr

/-- Soil moisture categories returned by `soil_category` (app.py 99-106). -/
inductive SoilCat
  | DRY
  | MODERATE
  | WET
  deriving DecidableEq, Repr

/-- app.py 99-106: `soil_category(soil)` — DRY if `soil < 30`, MODERATE if
`soil < 60`, else WET. -/
def soil_category (soil : ℚ) : SoilCat :=
  if soil < 30 then .DRY
  else if soil < 60 then .MODERATE
  else .WET

/-- app.py 109-138: `grid_risk(farm_risk, soil)`.  The Python function
compares `farm_risk` against the four risk strings in sequence; a value
that matches none of them (in particular `None`, the return value of a
skipped `process_field`) falls off the end of the function and yields an
implicit `None`.  We model the argument as `Option Risk` and the result as
`Option Risk` accordingly. -/
def grid_risk (farm_risk : Option Risk) (soil : ℚ) : Option Risk :=
  let soil_cat := soil_category soil
  if farm_risk = some .NORMAL then
    some .NORMAL
  else if farm_risk = some .WATCH then
    if soil_cat = .WET then some .WARNING
    else if soil_cat = .MODERATE then some .WATCH
    else some .NORMAL
  else if farm_risk = some .WARNING then
    if soil_cat = .WET then some .HIGH
    else if soil_cat = .MODERATE then some .WARNING
    else some .WATCH
  else if farm_risk = some .HIGH then
    if soil_cat = .DRY then some .WARNING
    else some .HIGH
  else
    none

/-- Transition table of spec §4.5, written from the spec's words (for the
refinement comparison with `grid_risk`). -/
def combinerTableSpec : Risk → SoilCat → Risk
  | .NORMAL, _ => .NORMAL
  | .WATCH, .DRY => .NORMAL
  | .WATCH, .MODERATE => .WATCH
  | .WATCH, .WET => .WARNING
  | .WARNING, .DRY => .WATCH
  | .WARNING, .MODERATE => .WARNING
  | .WARNING, .WET => .HIGH
  | .HIGH, .DRY => .WARNING
  | .HIGH, .MODERATE => .HIGH
  | .HIGH, .WET => .HIGH

/-- Severity rank of the strict order NORMAL < WATCH < WARNING < HIGH. -/
def severity : Risk → ℕ
  | .NORMAL => 0
  | .WATCH => 1
  | .WARNING => 2
  | .HIGH => 3

/-- Severity of an optional risk; a missing risk carries no severity. -/
def severityOpt : Option Risk → ℕ
  | none => 0
  | some r => severity r

/-- Rank of the soil-category order DRY < MODERATE < WET. -/
def catRank : SoilCat → ℕ
  | .DRY => 0
  | .MODERATE => 1
  | .WET => 2

/-- app.py 61-66: `dew_point(temp, rh)` with the Magnus constants
`a = 17.27`, `b = 237.7`; `rh ≤ 0` is replaced by `0.1` before taking the
logarithm. -/
def dew_point (logf : ℚ → ℚ) (temp rh : ℚ) : ℚ :=
  let a : ℚ := 17.27
  let b : ℚ := 237.7
  let rh' : ℚ := if rh ≤ 0 then 0.1 else rh
  let alpha := ((a * temp) / (b + temp)) + logf (rh' / 100)
  (b * alpha) / (a - alpha)

/-- Python truthiness test `not x` for an optional float: true when the
value is absent (`None`) or equal to `0.0`. -/
def pyFalsy : Option ℚ → Bool
  | none => true
  | some v => v == 0

/-- app.py 73-90: the retry loop of `get_latest_solar` over the day
offsets `[0, 1, 2, 3, 4]`.  `lookup i = none` models a request exception
(swallowed by the bare `except: continue`); a returned value equal to the
NASA sentinel `-999.0` is also skipped; after the loop the fallback `5.0`
is returned. -/
def solar_attempts (lookup : ℕ → Option ℚ) : List ℕ → ℚ
  | [] => 5
  | i :: rest =>
      match lookup i with
      | some val => if val ≠ -999 then val else solar_attempts lookup rest
      | none => solar_attempts lookup rest

/-- app.py 68-90: `get_latest_solar(lat, lon)`.  The guard is the Python
test `if not lat or not lon: return 0.0`, which fires when either
coordinate is `None` or `0.0`. -/
def get_latest_solar (lat lon : Option ℚ) (lookup : ℕ → Option ℚ) : ℚ :=
  if pyFalsy lat || pyFalsy lon then 0
  else solar_attempts lookup [0, 1, 2, 3, 4]

/-- Mean of a list of rationals (`np.mean`). -/
def mean (l : List ℚ) : ℚ := l.sum / l.length

/-- Minimum of a list (`np.min`; the empty case never arises on the
48-sample windows it is applied to). -/
def listMin : List ℚ → ℚ
  | [] => 0
  | x :: xs => xs.foldl min x

/-- Maximum of a list (`np.max`). -/
def listMax : List ℚ → ℚ
  | [] => 0
  | x :: xs => xs.foldl max x

/-- app.py 92-93: `summarize(values)` returns (mean, min, max); the triple
is consumed by `features.extend`, so we model it as the 3-element list it
contributes. -/
def summarize (l : List ℚ) : List ℚ := [mean l, listMin l, listMax l]

/-- app.py 228-232: the feature-vector assembly loop
`for arr in [temps, hums, dews, dpdiffs]: features.extend(summarize(arr))`
followed by `features.extend([solar, solar, solar])`. -/
def feature_vector (temps hums dews dpdiffs : List ℚ) (solar : ℚ) :
    List ℚ :=
  ([temps, hums, dews, dpdiffs].foldl (fun acc arr => acc ++ summarize arr) [])
    ++ [solar, solar, solar]

/-- app.py 239-243: threshold classification of the reconstruction
error. -/
def classify (threshold error : ℚ) : Risk :=
  if error > threshold then .HIGH
  else if error > threshold * 0.7 then .WATCH
  else .NORMAL

/-- The live env dictionary read from `live_status/{field}/env`
(app.py 151, 223): each key may be absent. -/
structure EnvData where
  temp : Option ℚ
  hum : Option ℚ
  lat : Option ℚ
  lon : Option ℚ

/-- One entry of `historical_logs/{field}` (app.py 197-203): its `env`
sub-dictionary may miss `temp` or `hum`, in which case the entry is
skipped. -/
structure LogEntry where
  temp : Option ℚ
  hum : Option ℚ

/-- app.py 196-203: keep the entries whose env has both readings, as
(temperature, humidity) pairs. -/
def validRecords (logs : List LogEntry) : List (ℚ × ℚ) :=
  logs.filterMap fun e =>
    match e.temp, e.hum with
    | some t, some h => some (t, h)
    | _, _ => none

/-- The Prediction Record written to `live_status/{field}/prediction`
(app.py 255-263), minus the wall-clock `lastUpdated` field. -/
structure PredictionRecord where
  risk : Risk
  anomaly_score : ℚ
  confidence : ℚ
  reason : String
  deriving DecidableEq, Repr

/-- Python `round(x, 2)` (banker's rounding at the second decimal),
idealized over ℚ. -/
def round_half_even (x : ℚ) : ℤ :=
  let f := ⌊x⌋
  if x - f < 1/2 then f
  else if x - f > 1/2 then f + 1
  else if f % 2 = 0 then f else f + 1

/-- `confidence = round(error / THRESHOLD, 2)` (app.py 260). -/
def py_round2 (x : ℚ) : ℚ := (round_half_even (x * 100) : ℚ) / 100

/-- Everything one call of `process_field` writes to the store, plus its
return value: the archive entries added to `users/{u}/history/{f}` (keyed
by millisecond timestamp) and the Prediction Record, if any, written to
`users/{u}/live_status/{f}/prediction`.  `ret` is `none` on every early
`return` (Python returns `None` there) and `some risk` at line 265. -/
structure FieldResult where
  archived : List (ℤ × ℚ × ℚ)
  prediction : Option PredictionRecord
  ret : Option Risk
  deriving DecidableEq

/-- app.py 145-265: `process_field(user_id, field_id, env_data)`.

Inputs modelling the ambient state and services:
* `logf` — `np.log`;
* `threshold` — the process-wide `THRESHOLD`;
* `score` — the opaque scoring model: scaler + autoencoder +
  mean-squared reconstruction error on a feature vector (lines 235-237);
* `lookup` — the NASA POWER query by day offset (`none` = exception);
* `lastTs` — the key of the most recent `history/{field}` entry
  (`order_by_key().limit_to_last(1)`, line 165), `none` when the bucket
  is empty;
* `now` — `int(time.time() * 1000)` (line 155);
* `logs` — the last 47 `historical_logs/{field}` entries (line 189); the
  Python `if not logs` test is the emptiness test here.

Steps, in source order: validate temp/hum presence (151), archive with
the 1,500,000 ms throttle (154-185), fetch + filter the window and append
the live sample (187-213), derive metrics and features (216-232), score
and classify (235-243), write the record and return the risk
(245-265). -/
def process_field (logf : ℚ → ℚ) (threshold : ℚ) (score : List ℚ → ℚ)
    (lookup : ℕ → Option ℚ) (env : EnvData) (lastTs : Option ℤ) (now : ℤ)
    (logs : List LogEntry) : FieldResult :=
  match env.temp, env.hum with
  | some t0, some h0 =>
    let archived : List (ℤ × ℚ × ℚ) :=
      match lastTs with
      | some last_ts => if now - last_ts < 1500000 then [] else [(now, t0, h0)]
      | none => [(now, t0, h0)]
    if logs.isEmpty then ⟨archived, none, none⟩
    else
      let records := validRecords logs ++ [(t0, h0)]
      if records.length < 48 then ⟨archived, none, none⟩
      else
        let temps := records.map Prod.fst
        let hums := records.map Prod.snd
        let dews := records.map fun r => dew_point logf r.1 r.2
        let dpdiffs := records.map fun r => r.1 - dew_point logf r.1 r.2
        let coords : ℚ × ℚ :=
          match env.lat, env.lon with
          | some la, some lo => (la, lo)
          | _, _ => (20.5937, 78.9629)
        let solar := get_latest_solar (some coords.1) (some coords.2) lookup
        let features := feature_vector temps hums dews dpdiffs solar
        let error := score features
        let risk := classify threshold error
        let reason :=
          match risk with
          | .HIGH => "High humidity and low solar drying"
          | .WATCH => "Elevated risk parameters detected"
          | _ => "Normal conditions"
        ⟨archived, some ⟨risk, error, py_round2 (error / threshold), reason⟩,
          some risk⟩
  | _, _ => ⟨[], none, none⟩

/-- app.py 292-311: the probe-update block run after `process_field`
returned `farm_risk`.  Result: the value written to
`probes/{probe}/prediction`, or `none` when nothing is written.
`raw_moisture = none` covers both an absent reading (line 298) and a
non-numeric one (`float` raises `ValueError`, caught at 308).  When
`farm_risk` matches no risk string, `grid_risk` returns `None` and
`Reference.set(None)` raises `ValueError` (the admin SDK rejects a null
value), which the same handler catches — so nothing is written then
either. -/
def probe_update (farm_risk : Option Risk) (raw_moisture : Option ℚ) :
    Option Risk :=
  match raw_moisture with
  | none => none
  | some m =>
      match grid_risk farm_risk m with
      | some r => some r
      | none => none

/-- app.py 286-290 (inner field loop of one fleet pass): run `ev` on each
field of one user in order.  The body has no try/except of its own, so an
exception from `ev` aborts the iteration; the result records which fields
were actually evaluated and the escaping exception, if any. -/
def run_fields (ev : α → Except ε β) : List α → List α × Option ε
  | [] => ([], none)
  | f :: rest =>
      match ev f with
      | .ok _ =>
          match run_fields ev rest with
          | (done, e) => (f :: done, e)
      | .error e => ([f], some e)

/-- app.py 276-313 (user loop of one fleet pass): an exception escaping a
field aborts the remaining users of the pass as well. -/
def run_users (ev : α → Except ε β) : List (List α) → List α × Option ε
  | [] => ([], none)
  | u :: rest =>
      match run_fields ev u with
      | (done, none) =>
          match run_users ev rest with
          | (d, e) => (done ++ d, e)
      | (done, some e) => (done, some e)

/-- app.py 270-318: one iteration of `prediction_loop`'s `while True`.
The `try` wraps the whole pass; the `except Exception` at line 315 absorbs
whatever escaped, so the pass always terminates normally and the loop
lives on.  The value is the list of fields on which `process_field` was
invoked during the pass. -/
def prediction_loop_pass (ev : α → Except ε β) (users : List (List α)) :
    List α :=
  (run_users ev users).1

/-- A concrete fleet evaluator in which exactly field `0` fails and every
other field evaluates normally. -/
def failFirst : ℕ → Except Unit (Option Risk) :=
  fun n => if n = 0 then .error () else .ok none

/-! ## Shared helper lemmas -/

/-- On a valid farm risk, `grid_risk` is the §4.5 table applied to the
soil category. -/
theorem grid_risk_some_eq (f : Risk) (m : ℚ) :
    grid_risk (some f) m = some (combinerTableSpec f (soil_category m)) := by
  cases h : soil_category m <;> cases f <;>
    simp [grid_risk, combinerTableSpec, h]

/-- What `process_field` archives depends only on the live sample, the
last archive key and the clock, not on the window or the scorer. -/
theorem process_field_archived (logf : ℚ → ℚ) (threshold : ℚ)
    (score : List ℚ → ℚ) (lookup : ℕ → Option ℚ) (env : EnvData)
    (lastTs : Option ℤ) (now : ℤ) (logs : List LogEntry) (t0 h0 : ℚ)
    (ht : env.temp = some t0) (hh : env.hum = some h0) :
    (process_field logf threshold score lookup env lastTs now logs).archived =
      match lastTs with
      | some last_ts => if now - last_ts < 1500000 then [] else [(now, t0, h0)]
      | none => [(now, t0, h0)] := by
  simp only [process_field, ht, hh]
  split
  · rfl
  · split
    · rfl
    · rfl

/-- The Prediction Record written by `process_field` does not depend on
the state of the archive bucket: scoring proceeds regardless of whether
the archive write happened. -/
theorem process_field_prediction_ignores_archive (logf : ℚ → ℚ)
    (threshold : ℚ) (score : List ℚ → ℚ) (lookup : ℕ → Option ℚ)
    (env : EnvData) (now : ℤ) (logs : List LogEntry) (l l' : Option ℤ) :
    (process_field logf threshold score lookup env l now logs).prediction =
      (process_field logf threshold score lookup env l' now logs).prediction := by
  rcases env with ⟨et, eh, el, eo⟩
  cases et with
  | none => rfl
  | some t0 =>
    cases eh with
    | none => rfl
    | some h0 =>
      simp only [process_field]
      by_cases he : logs.isEmpty = true
      · rw [if_pos he, if_pos he]
      · rw [if_neg he, if_neg he]
        by_cases hlen : (validRecords logs ++ [(t0, h0)]).length < 48
        · rw [if_pos hlen, if_pos hlen]
        · rw [if_neg hlen, if_neg hlen]

/-- When `process_field` writes no Prediction Record it also returns
`None` (every early `return` in the Python function is a bare one). -/
theorem process_field_no_prediction_no_ret (logf : ℚ → ℚ)
    (threshold : ℚ) (score : List ℚ → ℚ) (lookup : ℕ → Option ℚ)
    (env : EnvData) (lastTs : Option ℤ) (now : ℤ) (logs : List LogEntry)
    (h : (process_field logf threshold score lookup env lastTs now logs).prediction
        = none) :
    (process_field logf threshold score lookup env lastTs now logs).ret = none := by
  rcases env with ⟨et, eh, el, eo⟩
  cases et with
  | none => rfl
  | some t0 =>
    cases eh with
    | none => rfl
    | some h0 =>
      simp only [process_field] at h ⊢
      by_cases he : logs.isEmpty = true
      · rw [if_pos he]
      · rw [if_neg he] at h ⊢
        by_cases hlen : (validRecords logs ++ [(t0, h0)]).length < 48
        · rw [if_pos hlen]
        · rw [if_neg hlen] at h
          simp at h

/-- Shape of one user's field loop when the fields before `f` succeed and
`f` raises: the fields up to and including `f` are the ones evaluated,
and `f`'s exception escapes the loop. -/
theorem run_fields_fail_shape (ev : α → Except ε β) (pre : List α) (f : α)
    (post : List α) (e : ε) (hpre : ∀ g ∈ pre, ∃ b, ev g = .ok b)
    (hf : ev f = .error e) :
    run_fields ev (pre ++ f :: post) = (pre ++ [f], some e) := by
  induction pre with
  | nil => simp [run_fields, hf]
  | cons a t ih =>
      obtain ⟨b, hb⟩ := hpre a (List.mem_cons_self a t)
      have ht : ∀ g ∈ t, ∃ b, ev g = .ok b := fun g hg =>
        hpre g (List.mem_cons_of_mem a hg)
      simp [run_fields, hb, ih ht]

/-! ## Claim theorems -/

/-- C3: `grid_risk` is a total deterministic function on the 4×3 domain,
the moisture mapping is `<30 → DRY`, `30–59 → MODERATE`, `≥60 → WET`, it
agrees with the §4.5 transition table on every cell, and the three quoted
evaluations hold. -/
theorem grid_risk_matches_spec_table :
    (∀ (f : Risk) (m : ℚ),
        grid_risk (some f) m = some (combinerTableSpec f (soil_category m))) ∧
    (∀ m : ℚ,
        (m < 30 → soil_category m = .DRY) ∧
        (30 ≤ m → m < 60 → soil_category m = .MODERATE) ∧
        (60 ≤ m → soil_category m = .WET)) ∧
    grid_risk (some .WARNING) 15 = some .WATCH ∧
    grid_risk (some .HIGH) 70 = some .HIGH ∧
    grid_risk (some .NORMAL) 95 = some .NORMAL := by
  refine ⟨grid_risk_some_eq, ?_, by decide, by decide, by decide⟩
  intro m
  refine ⟨fun h => ?_, fun h1 h2 => ?_, fun h => ?_⟩
  · simp [soil_category, h]
  · simp [soil_category, not_lt.mpr h1, h2]
  · have h1 : ¬ m < 30 := not_lt.mpr (by linarith)
    simp [soil_category, h1, not_lt.mpr h]

/-- C3 witness: the theorem instantiated at moisture 45 and the quoted
example `grid_risk("WARNING", 15.0) == "WATCH"`. -/
theorem grid_risk_matches_spec_table_witness :
    soil_category 45 = SoilCat.MODERATE ∧
    grid_risk (some .WARNING) 15 = some .WATCH :=
  ⟨(grid_risk_matches_spec_table.2.1 45).2.1 (by norm_num) (by norm_num),
   grid_risk_matches_spec_table.2.2.1⟩

/-- C10: `grid_risk` is monotone in the farm risk (severity order
NORMAL < WATCH < WARNING < HIGH) for every fixed moisture, and monotone
in the soil category (DRY < MODERATE < WET) for every fixed farm
risk. -/
theorem grid_risk_monotone :
    (∀ (m : ℚ) (f f' : Risk), severity f ≤ severity f' →
        severityOpt (grid_risk (some f) m)
          ≤ severityOpt (grid_risk (some f') m)) ∧
    (∀ (f : Risk) (m m' : ℚ),
        catRank (soil_category m) ≤ catRank (soil_category m') →
        severityOpt (grid_risk (some f) m)
          ≤ severityOpt (grid_risk (some f) m')) := by
  constructor
  · intro m f f' h
    rw [grid_risk_some_eq, grid_risk_some_eq]
    revert h
    cases soil_category m <;> cases f <;> cases f' <;> decide
  · intro f m m' h
    rw [grid_risk_some_eq, grid_risk_some_eq]
    revert h
    cases soil_category m <;> cases soil_category m' <;> cases f <;> decide

/-- C10 witness: monotonicity instantiated at WATCH ≤ WARNING and
moisture 45. -/
theorem grid_risk_monotone_witness :
    severityOpt (grid_risk (some .WATCH) 45)
      ≤ severityOpt (grid_risk (some .WARNING) 45) :=
  grid_risk_monotone.1 45 .WATCH .WARNING (by decide)

/-- C4: for a positive THRESHOLD, the classified risk is HIGH iff
`error > THRESHOLD`, WATCH iff `THRESHOLD*0.7 < error ≤ THRESHOLD`,
NORMAL otherwise; the two boundary points fall on NORMAL and WATCH. -/
theorem classify_boundaries (T e : ℚ) (hT : 0 < T) :
    (classify T e = .HIGH ↔ T < e) ∧
    (classify T e = .WATCH ↔ T * 0.7 < e ∧ e ≤ T) ∧
    (classify T e = .NORMAL ↔ e ≤ T * 0.7) ∧
    classify T (T * 0.7) = .NORMAL ∧
    classify T T = .WATCH := by
  have h7 : T * 0.7 < T := by
    rw [show (0.7 : ℚ) = 7/10 by norm_num]
    linarith
  have key : ∀ x : ℚ,
      (classify T x = .HIGH ↔ T < x) ∧
      (classify T x = .WATCH ↔ T * 0.7 < x ∧ x ≤ T) ∧
      (classify T x = .NORMAL ↔ x ≤ T * 0.7) := by
    intro x
    rcases lt_or_le T x with h1 | h1
    · have h2 : T * 0.7 < x := h7.trans h1
      refine ⟨?_, ?_, ?_⟩ <;> simp [classify, h1, h2, h1.not_le, h2.not_le]
    · rcases lt_or_le (T * 0.7) x with h2 | h2
      · refine ⟨?_, ?_, ?_⟩ <;>
          simp [classify, h1, h2, h1.not_lt, h2.not_le]
      · refine ⟨?_, ?_, ?_⟩ <;>
          simp [classify, h1, h2, h1.not_lt, h2.not_lt]
  refine ⟨(key e).1, (key e).2.1, (key e).2.2, ?_, ?_⟩
  · exact (key (T * 0.7)).2.2.mpr le_rfl
  · exact (key T).2.1.mpr ⟨h7, le_rfl⟩

/-- C4 witness: with THRESHOLD = 10 the boundary error 7 = 10·0.7 is
NORMAL and the boundary error 10 is WATCH. -/
theorem classify_boundaries_witness :
    classify 10 (10 * 0.7) = .NORMAL ∧ classify 10 10 = .WATCH :=
  ⟨(classify_boundaries 10 0 (by norm_num)).2.2.2.1,
   (classify_boundaries 10 0 (by norm_num)).2.2.2.2⟩

/-- C8: `dew_point` substitutes RH = 0.1 for every RH ≤ 0 before
computing, and for RH > 0 equals the Magnus form with a = 17.27,
b = 237.7. -/
theorem dew_point_clamp_and_magnus (logf : ℚ → ℚ) (T rh : ℚ) :
    (rh ≤ 0 → dew_point logf T rh = dew_point logf T 0.1) ∧
    (0 < rh →
      dew_point logf T rh =
        (237.7 * ((17.27 * T) / (237.7 + T) + logf (rh / 100))) /
          (17.27 - ((17.27 * T) / (237.7 + T) + logf (rh / 100)))) := by
  constructor
  · intro h
    simp [dew_point, h, show ¬ (0.1 : ℚ) ≤ 0 by norm_num]
  · intro h
    simp [dew_point, not_le.mpr h]

/-- C8 witness: `dew_point` at RH = −5 equals `dew_point` at RH = 0.1
(with a stub logarithm, which both sides then apply to the same
argument). -/
theorem dew_point_clamp_witness :
    dew_point (fun _ => 0) 25 (-5) = dew_point (fun _ => 0) 25 0.1 :=
  (dew_point_clamp_and_magnus (fun _ => 0) 25 (-5)).1 (by norm_num)

/-- C9: the assembled feature vector is exactly the 15 values
(mean, min, max) of temperature, humidity, dew point and depression
followed by the solar scalar three times, and `summarize [1,2,3]` is
`(2, 1, 3)`. -/
theorem feature_vector_shape :
    (∀ (t h d p : List ℚ) (solar : ℚ),
        feature_vector t h d p solar =
          [mean t, listMin t, listMax t,
           mean h, listMin h, listMax h,
           mean d, listMin d, listMax d,
           mean p, listMin p, listMax p,
           solar, solar, solar] ∧
        (feature_vector t h d p solar).length = 15) ∧
    summarize [1, 2, 3] = [2, 1, 3] := by
  refine ⟨fun t h d p solar => ⟨rfl, rfl⟩, ?_⟩
  norm_num [summarize, mean, listMin, listMax]

/-- C7 counterexample: with latitude present (20) and longitude absent,
and a lookup that would succeed with value 8, `get_latest_solar` still
returns the 0.0 default — so 0.0 is not reserved for the case where both
coordinates are absent. -/
theorem get_latest_solar_default_counterexample :
    get_latest_solar (some 20) none (fun _ => some 8) = 0 ∧
    ¬((some (20 : ℚ)) = none ∧ (none : Option ℚ) = none) := by
  constructor
  · decide
  · simp

/-- C7 (amended): `get_latest_solar` returns 0.0, independently of the
lookup, whenever either coordinate is Python-falsy (absent or 0.0); when
both are truthy and all 5 daily attempts raise or return the −999.0
sentinel it returns the constant 5.0. -/
theorem get_latest_solar_defaults (lat lon : Option ℚ)
    (lookup : ℕ → Option ℚ) :
    ((pyFalsy lat || pyFalsy lon) = true →
        get_latest_solar lat lon lookup = 0) ∧
    ((pyFalsy lat || pyFalsy lon) = false →
        (∀ i, i < 5 → lookup i = none ∨ lookup i = some (-999)) →
        get_latest_solar lat lon lookup = 5) := by
  constructor
  · intro h
    simp [get_latest_solar, h]
  · intro h hl
    have h0 := hl 0 (by norm_num)
    have h1 := hl 1 (by norm_num)
    have h2 := hl 2 (by norm_num)
    have h3 := hl 3 (by norm_num)
    have h4 := hl 4 (by norm_num)
    simp only [get_latest_solar, h]
    rcases h0 with h0 | h0 <;> rcases h1 with h1 | h1 <;>
      rcases h2 with h2 | h2 <;> rcases h3 with h3 | h3 <;>
      rcases h4 with h4 | h4 <;>
      simp [solar_attempts, h0, h1, h2, h3, h4]

/-- C7 witness: a zero latitude short-circuits to 0.0 even though a
lookup would succeed, and with good coordinates five failing attempts
yield 5.0. -/
theorem get_latest_solar_defaults_witness :
    get_latest_solar (some 0) (some 1) (fun _ => some 8) = 0 ∧
    get_latest_solar (some 20) (some 78) (fun _ => none) = 5 :=
  ⟨(get_latest_solar_defaults (some 0) (some 1) (fun _ => some 8)).1
      (by decide),
   (get_latest_solar_defaults (some 20) (some 78) (fun _ => none)).2
      (by decide) (fun i _ => Or.inl rfl)⟩

/-- C2: given a live sample with both readings, `process_field` writes a
Prediction Record iff the scoring window — the valid retrieved records
plus the one live sample — has at least 48 entries; otherwise it returns
normally with no record written. -/
theorem process_field_window_gate (logf : ℚ → ℚ) (threshold : ℚ)
    (score : List ℚ → ℚ) (lookup : ℕ → Option ℚ) (env : EnvData)
    (lastTs : Option ℤ) (now : ℤ) (logs : List LogEntry) (t0 h0 : ℚ)
    (ht : env.temp = some t0) (hh : env.hum = some h0) :
    (process_field logf threshold score lookup env lastTs now logs).prediction.isSome
      = true
      ↔ 48 ≤ (validRecords logs ++ [(t0, h0)]).length := by
  simp only [process_field, ht, hh]
  split
  · next he =>
      have hnil : logs = [] := by
        cases logs with
        | nil => rfl
        | cons a l => simp at he
      subst hnil
      constructor
      · intro hfalse
        exact Bool.noConfusion hfalse
      · intro h48
        exact absurd h48 (by simp [validRecords])
  · next he =>
      split
      · next hlen =>
          constructor
          · intro hfalse
            exact Bool.noConfusion hfalse
          · intro h48
            exact absurd h48 (not_le.mpr hlen)
      · next hlen =>
          constructor
          · intro _
            exact le_of_not_lt hlen
          · intro _
            rfl

/-- C2 witness: 47 valid historical entries plus the live sample reach
the 48-sample gate. -/
theorem process_field_window_gate_witness :
    ((⟨some 25, some 50, none, none⟩ : EnvData).temp = some 25) ∧
    ((process_field (fun _ => 0) 1 (fun _ => 0) (fun _ => none)
        ⟨some 25, some 50, none, none⟩ none 0
        (List.replicate 47 ⟨some 25, some 50⟩)).prediction.isSome = true
      ↔ 48 ≤ (validRecords (List.replicate 47 ⟨some 25, some 50⟩)
          ++ [((25 : ℚ), (50 : ℚ))]).length) :=
  ⟨rfl,
   process_field_window_gate (fun _ => 0) 1 (fun _ => 0) (fun _ => none)
     ⟨some 25, some 50, none, none⟩ none 0
     (List.replicate 47 ⟨some 25, some 50⟩) 25 50 rfl rfl⟩

/-- C5: with the last archive entry at `T` and the live sample at
`T + d`, `process_field` writes no archive entry when `d < 1,500,000 ms`,
exactly one entry keyed by the new timestamp when `d ≥ 1,500,000 ms`,
writes the first entry when no archive exists, and in every case the
scoring stage proceeds unchanged (the Prediction Record does not depend
on the archive state). -/
theorem process_field_archive_gap (logf : ℚ → ℚ) (threshold : ℚ)
    (score : List ℚ → ℚ) (lookup : ℕ → Option ℚ) (env : EnvData)
    (logs : List LogEntry) (t0 h0 : ℚ)
    (ht : env.temp = some t0) (hh : env.hum = some h0) (T d : ℤ) :
    (d < 1500000 →
      (process_field logf threshold score lookup env (some T) (T + d) logs).archived
        = []) ∧
    (1500000 ≤ d →
      (process_field logf threshold score lookup env (some T) (T + d) logs).archived
        = [(T + d, t0, h0)]) ∧
    ((process_field logf threshold score lookup env none (T + d) logs).archived
        = [(T + d, t0, h0)]) ∧
    (∀ l l' : Option ℤ,
      (process_field logf threshold score lookup env l (T + d) logs).prediction
        = (process_field logf threshold score lookup env l' (T + d) logs).prediction) := by
  have e : T + d - T = d := by ring
  refine ⟨?_, ?_, ?_, ?_⟩
  · intro hd
    rw [process_field_archived logf threshold score lookup env (some T)
      (T + d) logs t0 h0 ht hh]
    simp [e, hd]
  · intro hd
    rw [process_field_archived logf threshold score lookup env (some T)
      (T + d) logs t0 h0 ht hh]
    simp [e, not_lt.mpr hd]
  · rw [process_field_archived logf threshold score lookup env none
      (T + d) logs t0 h0 ht hh]
  · intro l l'
    exact process_field_prediction_ignores_archive logf threshold score
      lookup env (T + d) logs l l'

/-- C5 witness: a 99 ms gap archives nothing; a 1,500,000 ms gap archives
exactly one entry keyed by the new timestamp. -/
theorem process_field_archive_gap_witness :
    (process_field (fun _ => 0) 1 (fun _ => 0) (fun _ => none)
        ⟨some 25, some 50, none, none⟩ (some 100) (100 + 99) []).archived
      = [] ∧
    (process_field (fun _ => 0) 1 (fun _ => 0) (fun _ => none)
        ⟨some 25, some 50, none, none⟩ (some 100) (100 + 1500000) []).archived
      = [((100 : ℤ) + 1500000, 25, 50)] :=
  ⟨(process_field_archive_gap (fun _ => 0) 1 (fun _ => 0) (fun _ => none)
      ⟨some 25, some 50, none, none⟩ [] 25 50 rfl rfl 100 99).1
      (by norm_num),
   (process_field_archive_gap (fun _ => 0) 1 (fun _ => 0) (fun _ => none)
      ⟨some 25, some 50, none, none⟩ [] 25 50 rfl rfl 100 1500000).2.1
      (by norm_num)⟩

/-- C6: when a field's evaluation skipped scoring (no Prediction Record
was written), no probe-level prediction is written for any probe of that
field in the same cycle: the `None` farm risk falls through `grid_risk`
and the probe write is rejected and caught. -/
theorem skipped_scoring_no_probe_write (logf : ℚ → ℚ) (threshold : ℚ)
    (score : List ℚ → ℚ) (lookup : ℕ → Option ℚ) (env : EnvData)
    (lastTs : Option ℤ) (now : ℤ) (logs : List LogEntry)
    (raw_moisture : Option ℚ)
    (h : (process_field logf threshold score lookup env lastTs now logs).prediction
        = none) :
    probe_update
      (process_field logf threshold score lookup env lastTs now logs).ret
      raw_moisture = none := by
  rw [process_field_no_prediction_no_ret logf threshold score lookup env
    lastTs now logs h]
  cases raw_moisture with
  | none => rfl
  | some m => simp [probe_update, grid_risk]

/-- C6 witness: a field whose live sample lacks a temperature writes no
farm prediction, and its probe with moisture 45 gets no prediction
either. -/
theorem skipped_scoring_no_probe_write_witness :
    probe_update
      (process_field (fun _ => 0) 1 (fun _ => 0) (fun _ => none)
        ⟨none, some 50, none, none⟩ none 0 []).ret (some 45) = none :=
  skipped_scoring_no_probe_write (fun _ => 0) 1 (fun _ => 0) (fun _ => none)
    ⟨none, some 50, none, none⟩ none 0 [] (some 45) rfl

/-- C1 counterexample: in a fleet pass over fields 0 and 1 where exactly
field 0's evaluation raises (field 1's evaluation succeeds), field 1 is
never evaluated — the failure is not contained at the field boundary. -/
theorem fleet_pass_isolation_counterexample :
    prediction_loop_pass failFirst [[0, 1]] = [0] ∧
    failFirst 1 = .ok none ∧
    (1 : ℕ) ∉ prediction_loop_pass failFirst [[0, 1]] := by
  refine ⟨rfl, rfl, ?_⟩
  decide

/-- C1 (amended): a field-evaluation error is caught at the pass (loop)
boundary, not the field boundary: the fields before the failing one are
evaluated, the failing field is the last one evaluated, the remaining
fields and users of that pass are skipped, and the pass itself returns
normally (the loop survives to its next iteration). -/
theorem fleet_pass_caught_at_pass_boundary (ev : α → Except ε β)
    (pre : List α) (f : α) (post : List α) (rest : List (List α)) (e : ε)
    (hpre : ∀ g ∈ pre, ∃ b, ev g = .ok b) (hf : ev f = .error e) :
    prediction_loop_pass ev ((pre ++ f :: post) :: rest) = pre ++ [f] := by
  simp [prediction_loop_pass, run_users,
    run_fields_fail_shape ev pre f post e hpre hf]

/-- C1 witness: with fields [5, 0, 7] and a second user [9], field 5 is
evaluated, field 0 fails, and fields 7 and 9 are skipped. -/
theorem fleet_pass_caught_at_pass_boundary_witness :
    prediction_loop_pass failFirst [[5, 0, 7], [9]] = [5, 0] := by
  have h := fleet_pass_caught_at_pass_boundary failFirst [5] 0 [7] [[9]] ()
    (by intro g hg; simp at hg; subst hg; exact ⟨none, rfl⟩) rfl
  simpa using h
